import Mathlib

/-!
Verification of the ElizaOS MCP bridge client's connection/session manager and
message-correlation engine (`ElizaClient`).  The definitions below are a
shallow embedding of the client's state and operations: the inbound
correlation machine mirrors `notifyMessageListeners`, `waitForNextMessage` and
the waiter registration of `sendMessageAndGetResponse`; the lifecycle
functions mirror `connect`, `joinRoom`, `disconnect`, `switchAgent` and
`setConfig`.
-/

namespace ElizaMCP

/-- Connection states of the client (`ConnectionState` in `types.ts`). -/
inductive ConnState
  | DISCONNECTED
  | CONNECTING
  | CONNECTED
  | ERROR
deriving DecidableEq, Repr

/-- Client configuration (`Required<ElizaClientConfig>` after the constructor
fills defaults): every field is present. -/
structure Config where
  agentId : String
  userId : String
  roomId : String
  worldId : String
  serverUrl : String
  connectionTimeout : Nat
  responseTimeout : Nat
deriving DecidableEq, Repr

/-- Payload of an error-shaped `sendMessageAndGetResponse` result:
`payload.message.error` and `payload.requestId` as built in the source. -/
structure ErrorPayload where
  messageError : String
  requestId : String
deriving DecidableEq, Repr

/-- An inbound envelope (`AgentResponseMessage`): the engine inspects `text`
and `senderId`; `error`/`status`/`payload` appear on the synthetic
error-shaped results; absent fields are `none` (JS `undefined`). -/
structure AgentResponseMessage where
  id : Option String := none
  text : Option String := none
  message : Option String := none
  content : Option String := none
  senderId : Option String := none
  status : Option String := none
  error : Option String := none
  payload : Option ErrorPayload := none
deriving DecidableEq, Repr

/-- Outbound socket message types (`SOCKET_MESSAGE_TYPE`). -/
inductive SockMsgType
  | ROOM_JOINING
  | SEND_MESSAGE
deriving DecidableEq, Repr

/-- Outbound socket message payload (`SocketMessagePayload`), with the fields
the client actually sets. -/
structure SockPayload where
  roomId : String := ""
  agentIds : List String := []
  senderId : String := ""
  senderName : String := ""
  message : String := ""
  agentId : String := ""
  worldId : String := ""
  messageId : String := ""
  source : String := ""
deriving DecidableEq, Repr

/-- Outbound envelope (`SocketMessage`). -/
structure SocketMessage where
  type : SockMsgType
  payload : SockPayload
deriving DecidableEq, Repr

/-- JS `String.prototype.trim()`: strip leading and trailing whitespace. -/
def jsTrim (s : String) : String :=
  ⟨((s.data.dropWhile Char.isWhitespace).reverse.dropWhile Char.isWhitespace).reverse⟩

/-- The validity test of `notifyMessageListeners` (line 400):
`data.text && data.text.trim() !== '' && data.senderId === this.config.agentId`.
A JS string is truthy iff non-empty, so the first two conjuncts amount to
`text` being present with a non-whitespace trim. -/
def isValidReply (cfg : Config) (m : AgentResponseMessage) : Bool :=
  match m.text with
  | none => false
  | some t => t ≠ "" && jsTrim t ≠ "" && m.senderId == some cfg.agentId

/-! ## The inbound-correlation machine

Waiters (`resolvers` in the source) are identified by the ordinal of the
`waitForNextMessage` / `sendMessageAndGetResponse` call that created them
(`nextWid` counts calls).  `resolved` records, in order, which waiter was
resolved with which message; `rejectedT` records the waiters whose timeout
callback settled them; `observed` records the envelopes forwarded to the
general `onMessage` listeners; `timers` holds the waiters whose response
timer is still set (`clearTimeout` removes a waiter from it). -/

structure TState where
  queue : List AgentResponseMessage
  waiting : List Nat
  timers : List Nat
  nextWid : Nat
  resolved : List (Nat × AgentResponseMessage)
  rejectedT : List Nat
  observed : List AgentResponseMessage
deriving DecidableEq, Repr

def initTState : TState :=
  { queue := [], waiting := [], timers := [], nextWid := 0,
    resolved := [], rejectedT := [], observed := [] }

/-- The drain loop of `notifyMessageListeners` (lines 403-414):
`while (resolvers.length > 0 && messageQueue.length > 0)` shift the oldest
resolver and the oldest queued message and call the resolver; the resolver
wrapper clears the waiter's timer when called. -/
def drainLoop : List Nat → List AgentResponseMessage → List Nat →
    List (Nat × AgentResponseMessage) →
    List Nat × List AgentResponseMessage × List Nat × List (Nat × AgentResponseMessage)
  | w :: ws, m :: ms, ts, acc => drainLoop ws ms (ts.erase w) (acc ++ [(w, m)])
  | ws, ms, ts, acc => (ws, ms, ts, acc)

/-- Events hitting the correlation engine: an inbound broadcast envelope, a
`waitForNextMessage` call, a `sendMessageAndGetResponse` waiter registration,
and a response-timeout timer firing for waiter `wid`. -/
inductive CEvent
  | arrive (m : AgentResponseMessage)
  | registerWait
  | registerSendAwait
  | timerFire (wid : Nat)
deriving DecidableEq, Repr

/-- Events used by the FIFO-correlation claim: inbound envelopes and
`waitForNextMessage` registrations only. -/
def CEvent.isBasic : CEvent → Bool
  | .arrive _ => true
  | .registerWait => true
  | _ => false

/-- One step of the correlation engine.

* `arrive m` is `notifyMessageListeners m`: a valid reply is pushed onto the
  queue and the drain loop runs; every envelope is then forwarded to the
  general listeners (lines 397-432).
* `registerWait` is `waitForNextMessage`: a non-empty queue is consumed
  immediately (lines 449-459, no waiter registered, no timer started);
  otherwise the resolver and its timer are registered (lines 461-485).
* `registerSendAwait` is the waiter registration of
  `sendMessageAndGetResponse` (lines 649-675): the timer is set and the
  resolver pushed without consulting the queue.
* `timerFire wid` is a timeout callback: it can only run while the timer is
  still set; `waitForNextMessage`'s callback removes the resolver when it is
  still pending (`indexOf` check, lines 476-485) and
  `sendMessageAndGetResponse`'s filters it out (lines 650-660); both settle
  the waiter by timeout. -/
def cstep (cfg : Config) (s : TState) : CEvent → TState
  | .arrive m =>
    if isValidReply cfg m then
      let q := s.queue ++ [m]
      let r := drainLoop s.waiting q s.timers s.resolved
      { s with waiting := r.1, queue := r.2.1, timers := r.2.2.1,
               resolved := r.2.2.2, observed := s.observed ++ [m] }
    else
      { s with observed := s.observed ++ [m] }
  | .registerWait =>
    match s.queue with
    | m :: rest =>
      { s with queue := rest, resolved := s.resolved ++ [(s.nextWid, m)],
               nextWid := s.nextWid + 1 }
    | [] =>
      { s with waiting := s.waiting ++ [s.nextWid],
               timers := s.timers ++ [s.nextWid], nextWid := s.nextWid + 1 }
  | .registerSendAwait =>
      { s with waiting := s.waiting ++ [s.nextWid],
               timers := s.timers ++ [s.nextWid], nextWid := s.nextWid + 1 }
  | .timerFire wid =>
    if wid ∈ s.timers then
      if wid ∈ s.waiting then
        { s with timers := s.timers.erase wid,
                 waiting := s.waiting.erase wid,
                 rejectedT := s.rejectedT ++ [wid] }
      else
        { s with timers := s.timers.erase wid }
    else s

/-- Run the correlation engine over a sequence of events. -/
def runEvents (cfg : Config) (s : TState) : List CEvent → TState
  | [] => s
  | e :: es => runEvents cfg (cstep cfg s e) es

/-- The valid replies among a sequence of events, in arrival order. -/
def validArrivals (cfg : Config) : List CEvent → List AgentResponseMessage
  | [] => []
  | .arrive m :: es =>
      if isValidReply cfg m then m :: validArrivals cfg es else validArrivals cfg es
  | _ :: es => validArrivals cfg es

/-- The number of `waitForNextMessage` registrations in a sequence of events. -/
def numRegs : List CEvent → Nat
  | [] => 0
  | .registerWait :: es => numRegs es + 1
  | _ :: es => numRegs es

/-- Pair the elements of a list with consecutive indices starting at `n`. -/
def idxFrom (n : Nat) : List AgentResponseMessage → List (Nat × AgentResponseMessage)
  | [] => []
  | m :: ms => (n, m) :: idxFrom (n + 1) ms

/-! ## Invariants of the correlation machine -/

/-- The invariant tying a correlation-engine state to the valid replies `vs`
that have arrived so far and the number `w` of waiter registrations so far:
the first `min |vs| w` waiters are resolved in FIFO order, the queue holds the
replies no waiter has claimed, the waiter list holds the registrations no
reply has reached, and each pending waiter still has its timer. -/
def FifoInv (vs : List AgentResponseMessage) (w : Nat) (s : TState) : Prop :=
  s.resolved = idxFrom 0 (vs.take w) ∧
  s.queue = vs.drop w ∧
  s.waiting = (List.range w).drop vs.length ∧
  s.timers = s.waiting ∧
  s.nextWid = w

/-- Facts about a waiter id that has been settled (resolved or timed out):
it is no longer pending, its id is in the past of the id counter, and it is
not among the resolved ids.  Preserved by every event, so a settled waiter is
never resolved later. -/
def NotMine (wid : Nat) (s : TState) : Prop :=
  wid ∉ s.waiting ∧ wid < s.nextWid ∧ wid ∉ s.resolved.map Prod.fst

/-- Structural invariant of every reachable correlation-engine state: pending
waiter ids are distinct, below the id counter and unresolved, and exactly the
pending waiters still have their timers set. -/
def WellFormed (s : TState) : Prop :=
  s.waiting.Nodup ∧
  (∀ w ∈ s.waiting, w < s.nextWid) ∧
  (∀ w ∈ s.waiting, w ∉ s.resolved.map Prod.fst) ∧
  (∀ w ∈ s.resolved.map Prod.fst, w < s.nextWid) ∧
  s.timers = s.waiting

instance (s : TState) : Decidable (WellFormed s) := by
  unfold WellFormed; infer_instance

/-! ## Session lifecycle

The lifecycle state of the client object: the configuration, the connection
state, whether the socket object exists (`this.socket !== null`) and whether
it is connected (`this.socket.connected`), the room-membership flag, the
message queue and resolver list (as bare sizes are enough for the lifecycle
claims, the resolver list holds waiter ids), the log of emitted envelopes,
the in-flight `connect()` promise (`none` while pending) and whether the
connect-timeout timer has been cleared. -/

instance : DecidableEq (Except String Bool) := fun a b =>
  match a, b with
  | .ok x, .ok y =>
    if h : x = y then .isTrue (by rw [h])
    else .isFalse (by intro hc; cases hc; exact h rfl)
  | .error x, .error y =>
    if h : x = y then .isTrue (by rw [h])
    else .isFalse (by intro hc; cases hc; exact h rfl)
  | .ok _, .error _ => .isFalse (by intro hc; cases hc)
  | .error _, .ok _ => .isFalse (by intro hc; cases hc)

structure ClientState where
  config : Config
  connectionState : ConnState
  socketExists : Bool
  socketConnected : Bool
  roomJoined : Bool
  messageQueue : List AgentResponseMessage
  resolvers : List Nat
  emitted : List SocketMessage
  attemptSettled : Option (Except String Bool)
  timerCleared : Bool
deriving DecidableEq, Repr

/-- Outcome of the synchronous prefix of `connect()` (lines 111-148). -/
inductive ConnectOutcome
  | alreadyConnected
  | configError (msg : String)
  | opened
deriving DecidableEq, Repr

/-- The synchronous prefix of `connect()` (lines 111-148): the
already-connected early return, the two configuration checks (thrown before
any state change or socket creation), and otherwise the transition to
`CONNECTING` and the opening of the transport with a pending promise and an
armed connect-timeout timer. -/
def connectSync (s : ClientState) : ConnectOutcome × ClientState :=
  if s.socketConnected then (.alreadyConnected, s)
  else if s.config.agentId = "" ∨ s.config.roomId = "" then
    (.configError "Agent ID and Room ID must be set before connecting", s)
  else if s.config.agentId ≠ s.config.roomId then
    (.configError "Agent ID and Room ID must be identical for connection.", s)
  else
    (.opened, { s with connectionState := .CONNECTING, socketExists := true,
                       socketConnected := false, attemptSettled := none,
                       timerCleared := false })

/-- `joinRoom()` (lines 213-241): a no-op unless the socket is connected, the
room is not yet joined and both ids are configured; otherwise emits one
`ROOM_JOINING` envelope naming the room and the singleton agent list, then
sets the membership flag. -/
def joinRoomOp (s : ClientState) : ClientState :=
  if ¬ s.socketExists ∨ ¬ s.socketConnected then s
  else if s.roomJoined then s
  else if s.config.roomId = "" ∨ s.config.agentId = "" then s
  else
    { s with
      emitted := s.emitted ++
        [{ type := .ROOM_JOINING,
           payload := { roomId := s.config.roomId,
                        agentIds := [s.config.agentId] } }],
      roomJoined := true }

/-- Transport events observed during and after a connect attempt
(handlers registered at lines 150-195). -/
inductive ConnEvent
  | connectEv
  | connectErrorEv (err : String)
  | reconnectAttemptEv (n : Nat)
  | reconnectFailedEv
  | connectTimeoutFires
  | disconnectEv (reason : String)
deriving DecidableEq, Repr

/-- A JS promise settles at most once; later resolve/reject calls are
no-ops. -/
def settleOnce (cur : Option (Except String Bool)) (v : Except String Bool) :
    Option (Except String Bool) :=
  match cur with
  | none => some v
  | some r => some r

/-- `handleError` (lines 375-385): transition to `ERROR` and notify the error
listeners. -/
def handleError (s : ClientState) : ClientState :=
  { s with connectionState := .ERROR }

/-- The transport event handlers of `connect()`:

* `connect` (lines 158-165): clear the connect-timeout timer, transition to
  `CONNECTED`, join the room, resolve the pending promise with `true`;
* `connect_error` (lines 167-169): log only;
* `reconnect_attempt` (lines 171-173): log only;
* `reconnect_failed` (lines 175-179): `handleError` and reject;
* the connect-timeout timer (lines 150-156): if not cleared and the state is
  not `CONNECTED`, `handleError` and reject;
* `disconnect` (lines 181-185): transition to `DISCONNECTED` and clear the
  membership flag. -/
def connStep (s : ClientState) : ConnEvent → ClientState
  | .connectEv =>
    let s1 := joinRoomOp { s with socketConnected := true, timerCleared := true,
                                  connectionState := .CONNECTED }
    { s1 with attemptSettled := settleOnce s1.attemptSettled (.ok true) }
  | .connectErrorEv _ => s
  | .reconnectAttemptEv _ => s
  | .reconnectFailedEv =>
    let msg := "Failed to reconnect to ElizaOS server after multiple attempts"
    { handleError s with attemptSettled := settleOnce s.attemptSettled (.error msg) }
  | .connectTimeoutFires =>
    if s.timerCleared then s
    else if s.connectionState ≠ .CONNECTED then
      let msg := "Connection timeout after " ++ toString s.config.connectionTimeout ++ "ms"
      { handleError s with attemptSettled := settleOnce s.attemptSettled (.error msg) }
    else s
  | .disconnectEv _ =>
    { s with connectionState := .DISCONNECTED, roomJoined := false,
             socketConnected := false }

/-- The transport events whose handlers settle (resolve or reject) the
pending `connect()` promise. -/
def ConnEvent.settlesAttempt : ConnEvent → Bool
  | .connectEv => true
  | .reconnectFailedEv => true
  | .connectTimeoutFires => true
  | _ => false

/-- `disconnect()` (lines 316-321) together with the transport boundary: the
socket.io client emits the `disconnect` event synchronously on a manual
disconnect iff the socket was actually connected, which drives the handler of
lines 181-185; a socket that is absent or not connected emits nothing, so no
state change occurs. -/
def disconnectOp (s : ClientState) : ClientState :=
  if s.socketExists then
    if s.socketConnected then
      { s with connectionState := .DISCONNECTED, roomJoined := false,
               socketConnected := false }
    else s
  else s

/-- `switchAgent` (lines 499-518) up to but excluding the final `connect()`
call: the identity check on the two arguments, the disconnect of a connected
session, and the replacement of target/room with the reset of membership
flag, message queue and resolver list. -/
def switchAgentPre (s : ClientState) (newAgentId newRoomId : String) :
    Except String ClientState :=
  if newAgentId ≠ newRoomId then
    .error "Switching agent failed: newAgentId and newRoomId must be identical."
  else
    let s1 := if s.socketExists ∧ s.socketConnected then disconnectOp s else s
    .ok { s1 with
      config := { s1.config with agentId := newAgentId, roomId := newRoomId },
      roomJoined := false, messageQueue := [], resolvers := [] }

/-- A `Partial<ElizaClientConfig>` argument to `setConfig`: absent fields are
`none`. -/
structure ConfigPatch where
  agentId : Option String := none
  userId : Option String := none
  roomId : Option String := none
  worldId : Option String := none
  serverUrl : Option String := none
  connectionTimeout : Option Nat := none
  responseTimeout : Option Nat := none
deriving DecidableEq, Repr

/-- The JS object spread `{ ...this.config, ...newConfigPartial }`. -/
def mergeConfig (c : Config) (p : ConfigPatch) : Config :=
  { agentId := p.agentId.getD c.agentId,
    userId := p.userId.getD c.userId,
    roomId := p.roomId.getD c.roomId,
    worldId := p.worldId.getD c.worldId,
    serverUrl := p.serverUrl.getD c.serverUrl,
    connectionTimeout := p.connectionTimeout.getD c.connectionTimeout,
    responseTimeout := p.responseTimeout.getD c.responseTimeout }

/-- All five identity fields of a configuration are populated (the truthiness
check of line 569). -/
def allIdentitySet (c : Config) : Prop :=
  c.agentId ≠ "" ∧ c.roomId ≠ "" ∧ c.serverUrl ≠ "" ∧ c.userId ≠ "" ∧ c.worldId ≠ ""

instance (c : Config) : Decidable (allIdentitySet c) := by
  unfold allIdentitySet; infer_instance

/-- The observable run of one `setConfig` call. -/
structure SetConfigRun where
  criticalChange : Bool
  /-- the client state after the merge and the disconnect phase, immediately
  before any `connect()` attempt -/
  beforeConnect : ClientState
  /-- whether one fresh `connect()` is attempted -/
  connectAttempted : Bool
  /-- when no connect is attempted, the resulting state -/
  noConnectFinal : ClientState
deriving DecidableEq, Repr

/-- The critical-change test of `setConfig` (lines 555-559): any of the five
identity fields differs between the old and the merged configuration. -/
def criticalChangeOf (c : Config) (p : ConfigPatch) : Bool :=
  decide ((mergeConfig c p).agentId ≠ c.agentId ∨
    (mergeConfig c p).roomId ≠ c.roomId ∨
    (mergeConfig c p).serverUrl ≠ c.serverUrl ∨
    (mergeConfig c p).userId ≠ c.userId ∨
    (mergeConfig c p).worldId ≠ c.worldId)

/-- The merge and disconnect phase of `setConfig` (lines 548-564): install the
merged configuration, then `disconnect()` when a critical change arrives in a
non-`DISCONNECTED` state. -/
def setConfigDisconnectPhase (s : ClientState) (p : ConfigPatch) : ClientState :=
  let s1 : ClientState := { s with config := mergeConfig s.config p }
  if criticalChangeOf s.config p ∧ s1.connectionState ≠ .DISCONNECTED then
    disconnectOp s1
  else s1

/-- `setConfig` (lines 545-583) up to but excluding the `connect()` call it
may make: merge the patch, detect a critical change over the five identity
fields, disconnect when a critical change arrives in a non-`DISCONNECTED`
state, then decide whether to attempt one fresh `connect()` (all five
identity fields populated) or to force the state to `DISCONNECTED`
(line 580). -/
def setConfigModel (s : ClientState) (p : ConfigPatch) : SetConfigRun :=
  let critical := criticalChangeOf s.config p
  let s2 := setConfigDisconnectPhase s p
  if s2.connectionState = .DISCONNECTED ∨ (critical ∧ s2.connectionState ≠ .CONNECTING) then
    if allIdentitySet (mergeConfig s.config p) then
      { criticalChange := critical, beforeConnect := s2,
        connectAttempted := true, noConnectFinal := s2 }
    else
      { criticalChange := critical, beforeConnect := s2,
        connectAttempted := false,
        noConnectFinal := { s2 with connectionState := .DISCONNECTED } }
  else
    { criticalChange := critical, beforeConnect := s2,
      connectAttempted := false, noConnectFinal := s2 }

/-! ## Response-timeout surfacing -/

/-- `timeout || this.config.responseTimeout` (line 444): JS `||` takes the
default also for an explicit `0`. -/
def effWaitTimeout (cfg : Config) (timeoutArg : Option Nat) : Nat :=
  match timeoutArg with
  | some t => if t ≠ 0 then t else cfg.responseTimeout
  | none => cfg.responseTimeout

/-- How a promise settles: a JS `resolve` or `reject`. -/
inductive Settle
  | resolve (m : AgentResponseMessage)
  | reject (err : String)
deriving DecidableEq, Repr

/-- The timeout callback of `waitForNextMessage` when the resolver is still
pending (lines 476-485): the waiter is removed from the resolver list and the
promise REJECTS with the timeout error naming the agent and the waited
duration. -/
def waitForNextOnTimeout (cfg : Config) (timeoutArg : Option Nat) : Settle :=
  .reject ("Timeout waiting for a VALID TEXTUAL response from agent " ++
    cfg.agentId ++ " after " ++ toString (effWaitTimeout cfg timeoutArg) ++ "ms")

/-- The error-shaped result the timeout callback of
`sendMessageAndGetResponse` resolves with (lines 650-660). -/
def sendAwaitTimeoutResult (cfg : Config) (messageId : String) : AgentResponseMessage :=
  { payload := some
      { messageError := "Response timeout after " ++
          toString cfg.responseTimeout ++ "ms for message ID " ++ messageId,
        requestId := messageId },
    status := some "error",
    error := some ("Response timeout after " ++
      toString cfg.responseTimeout ++ "ms for message ID " ++ messageId) }

/-- The timeout callback of `sendMessageAndGetResponse` (lines 650-660): the
resolver is removed and the promise RESOLVES with the error-shaped result. -/
def sendAwaitOnTimeout (cfg : Config) (messageId : String) : Settle :=
  .resolve (sendAwaitTimeoutResult cfg messageId)

/-- How the front half of `sendMessageAndGetResponse` leaves its caller. -/
inductive SAStart
  | rejected (err : String)
  | resolvedError (r : AgentResponseMessage)
  | awaiting
deriving DecidableEq, Repr

/-- An error-shaped `AgentResponseMessage` as built at lines 602-609,
618-625 and 685-689. -/
def errorShaped (msg : String) (requestId : String) : AgentResponseMessage :=
  { payload := some { messageError := msg, requestId := requestId },
    status := some "error", error := some msg }

/-- The body of `sendMessageAndGetResponse` after any reconnect, from the
room-join check to the waiter registration (lines 613-691). -/
def saAfterConnect (s : ClientState) (messageId : String) : SAStart :=
  if ¬ s.roomJoined ∧ s.connectionState ≠ .CONNECTED then
    .resolvedError (errorShaped
      "Cannot send message, connection not established and room not joined." "")
  else if s.socketExists then .awaiting
  else .resolvedError (errorShaped
    "Socket is not initialized, cannot send message." messageId)

/-- `sendMessageAndGetResponse` (lines 594-692) up to its waiter
registration.  `connectResult` abstracts what the awaited `connect()` call of
line 597 did: `.error e` when that promise rejected (the only path on which
this function rejects), `.ok s'` with the session state after it resolved. -/
def sendMessageAndGetResponse (s : ClientState)
    (connectResult : Except String ClientState) (messageId : String) : SAStart :=
  if s.socketConnected then saAfterConnect s messageId
  else
    match connectResult with
    | .error e => .rejected e
    | .ok s' =>
      if ¬ s'.socketConnected then
        .resolvedError (errorShaped "Failed to connect. Cannot send message." "")
      else saAfterConnect s' messageId

/-! ## Concrete instances for witnesses and counterexamples -/

/-- A concrete configuration satisfying the identity invariant. -/
def cfgW : Config :=
  { agentId := "X", userId := "U", roomId := "X", worldId := "W",
    serverUrl := "http://localhost:3000", connectionTimeout := 120000,
    responseTimeout := 90000 }

/-- A valid textual reply from the configured agent of `cfgW`. -/
def replyW (t : String) : AgentResponseMessage :=
  { text := some t, senderId := some "X" }

/-- The scenario of spec property P3: waiters and replies interleaved. -/
def evsW : List CEvent :=
  [.registerWait, .arrive (replyW "r1"), .registerWait, .arrive (replyW "r2"),
   .registerWait, .arrive (replyW "r3")]

/-- A connected session whose configured agent and room ids disagree. -/
def sConnectedMismatch : ClientState :=
  { config := { cfgW with roomId := "Y" }, connectionState := .CONNECTED,
    socketExists := true, socketConnected := true, roomJoined := true,
    messageQueue := [], resolvers := [], emitted := [],
    attemptSettled := some (.ok true), timerCleared := true }

/-- A disconnected client with an empty configuration. -/
def sFresh : ClientState :=
  { config := { agentId := "", userId := "", roomId := "", worldId := "",
                serverUrl := "", connectionTimeout := 120000,
                responseTimeout := 90000 },
    connectionState := .DISCONNECTED, socketExists := false,
    socketConnected := false, roomJoined := false, messageQueue := [],
    resolvers := [], emitted := [], attemptSettled := none,
    timerCleared := false }

/-- A session in `ERROR` state whose socket exists but is not connected (a
connect attempt that timed out while the transport kept retrying). -/
def sErrorState : ClientState :=
  { sFresh with
      config := cfgW, connectionState := .ERROR, socketExists := true }

/-- A patch switching the target and room to agent `B`. -/
def pSwitchB : ConfigPatch := { agentId := some "B", roomId := some "B" }

/-- A connected, joined session configured with `cfgW`. -/
def sConnected : ClientState :=
  { sFresh with
      config := cfgW, connectionState := .CONNECTED, socketExists := true,
      socketConnected := true, roomJoined := true }

/-- An envelope from a sender other than the configured agent of `cfgW`. -/
def msgForeign : AgentResponseMessage :=
  { text := some "hello", senderId := some "other" }

/-- A correlation-engine state with one reply already queued and no pending
waiter. -/
def sQueued : TState := { initTState with queue := [replyW "q0"] }

theorem idxFrom_append (n : Nat) (l1 l2 : List AgentResponseMessage) :
    idxFrom n (l1 ++ l2) = idxFrom n l1 ++ idxFrom (n + l1.length) l2 := by
  induction l1 generalizing n with
  | nil => simp [idxFrom]
  | cons a l ih =>
    have h : n + (l.length + 1) = n + 1 + l.length := by omega
    simp only [List.cons_append, idxFrom, List.length_cons, List.append_eq, h, ih]

/-- The drain loop pairs the oldest waiters with the oldest queued messages,
in order, until one list is exhausted; each paired waiter's timer is
cleared. -/
theorem drainLoop_eq (ws : List Nat) (ms : List AgentResponseMessage) (ts : List Nat)
    (acc : List (Nat × AgentResponseMessage)) :
    drainLoop ws ms ts acc =
      (ws.drop ms.length, ms.drop ws.length,
       (ws.zip ms).foldl (fun tt p => tt.erase p.1) ts, acc ++ ws.zip ms) := by
  induction ws generalizing ms ts acc with
  | nil => simp [drainLoop]
  | cons w ws ih =>
    cases ms with
    | nil => simp [drainLoop]
    | cons m ms =>
      simp [drainLoop, ih, List.append_assoc]

/-! Unfolding equations for `cstep`, one per source branch. -/

theorem cstep_arrive_valid (cfg : Config) (s : TState) (m : AgentResponseMessage)
    (hv : isValidReply cfg m = true) :
    cstep cfg s (.arrive m) =
      { s with waiting := (drainLoop s.waiting (s.queue ++ [m]) s.timers s.resolved).1,
               queue := (drainLoop s.waiting (s.queue ++ [m]) s.timers s.resolved).2.1,
               timers := (drainLoop s.waiting (s.queue ++ [m]) s.timers s.resolved).2.2.1,
               resolved := (drainLoop s.waiting (s.queue ++ [m]) s.timers s.resolved).2.2.2,
               observed := s.observed ++ [m] } := by
  simp [cstep, hv]

theorem cstep_arrive_invalid (cfg : Config) (s : TState) (m : AgentResponseMessage)
    (hv : ¬ isValidReply cfg m = true) :
    cstep cfg s (.arrive m) = { s with observed := s.observed ++ [m] } := by
  simp [cstep, hv]

theorem cstep_registerWait_nil (cfg : Config) (s : TState) (hq : s.queue = []) :
    cstep cfg s .registerWait =
      { s with waiting := s.waiting ++ [s.nextWid],
               timers := s.timers ++ [s.nextWid], nextWid := s.nextWid + 1 } := by
  simp [cstep, hq]

theorem cstep_registerWait_cons (cfg : Config) (s : TState)
    (m : AgentResponseMessage) (rest : List AgentResponseMessage)
    (hq : s.queue = m :: rest) :
    cstep cfg s .registerWait =
      { s with queue := rest, resolved := s.resolved ++ [(s.nextWid, m)],
               nextWid := s.nextWid + 1 } := by
  simp [cstep, hq]

theorem cstep_registerSendAwait (cfg : Config) (s : TState) :
    cstep cfg s .registerSendAwait =
      { s with waiting := s.waiting ++ [s.nextWid],
               timers := s.timers ++ [s.nextWid], nextWid := s.nextWid + 1 } :=
  rfl

theorem cstep_timerFire_pending (cfg : Config) (s : TState) (wid : Nat)
    (hts : wid ∈ s.timers) (hw : wid ∈ s.waiting) :
    cstep cfg s (.timerFire wid) =
      { s with timers := s.timers.erase wid, waiting := s.waiting.erase wid,
               rejectedT := s.rejectedT ++ [wid] } := by
  simp [cstep, hts, hw]

theorem cstep_timerFire_settled (cfg : Config) (s : TState) (wid : Nat)
    (hts : wid ∈ s.timers) (hw : wid ∉ s.waiting) :
    cstep cfg s (.timerFire wid) = { s with timers := s.timers.erase wid } := by
  simp [cstep, hts, hw]

theorem cstep_timerFire_cleared (cfg : Config) (s : TState) (wid : Nat)
    (hts : wid ∉ s.timers) :
    cstep cfg s (.timerFire wid) = s := by
  simp [cstep, hts]

theorem fifoInv_init : FifoInv [] 0 initTState :=
  ⟨rfl, rfl, rfl, rfl, rfl⟩

theorem fifoInv_registerWait (cfg : Config) (vs : List AgentResponseMessage)
    (w : Nat) (s : TState) (h : FifoInv vs w s) :
    FifoInv vs (w + 1) (cstep cfg s .registerWait) := by
  obtain ⟨hres, hq, hw, ht, hn⟩ := h
  by_cases hwl : vs.length ≤ w
  · have hqe : s.queue = [] := by rw [hq]; exact List.drop_eq_nil_of_le hwl
    rw [cstep_registerWait_nil cfg s hqe]
    refine ⟨?_, ?_, ?_, ?_, ?_⟩
    · show s.resolved = idxFrom 0 (vs.take (w + 1))
      rw [hres, List.take_of_length_le hwl, List.take_of_length_le (by omega)]
    · show s.queue = vs.drop (w + 1)
      rw [hqe, List.drop_eq_nil_of_le (by omega)]
    · show s.waiting ++ [s.nextWid] = (List.range (w + 1)).drop vs.length
      rw [hw, hn, List.range_succ, List.drop_append_eq_append_drop,
        List.length_range, Nat.sub_eq_zero_of_le hwl, List.drop_zero]
    · show s.timers ++ [s.nextWid] = s.waiting ++ [s.nextWid]
      rw [ht]
    · show s.nextWid + 1 = w + 1
      rw [hn]
  · push_neg at hwl
    have hget : s.queue = vs[w] :: vs.drop (w + 1) := by
      rw [hq]; exact List.drop_eq_getElem_cons hwl
    rw [cstep_registerWait_cons cfg s _ _ hget]
    refine ⟨?_, ?_, ?_, ?_, ?_⟩
    · show s.resolved ++ [(s.nextWid, vs[w])] = idxFrom 0 (vs.take (w + 1))
      rw [hres, hn, List.take_succ, List.getElem?_eq_getElem hwl]
      rw [idxFrom_append]
      simp [List.length_take, Nat.min_eq_left (le_of_lt hwl), idxFrom]
    · show vs.drop (w + 1) = vs.drop (w + 1)
      rfl
    · show s.waiting = (List.range (w + 1)).drop vs.length
      rw [hw, List.drop_eq_nil_of_le (by simp; omega),
        List.drop_eq_nil_of_le (by simp; omega)]
    · show s.timers = s.waiting
      exact ht
    · show s.nextWid + 1 = w + 1
      rw [hn]

theorem fifoInv_arrive_invalid (cfg : Config) (vs : List AgentResponseMessage)
    (w : Nat) (s : TState) (m : AgentResponseMessage) (h : FifoInv vs w s)
    (hv : ¬ isValidReply cfg m = true) :
    FifoInv vs w (cstep cfg s (.arrive m)) := by
  obtain ⟨hres, hq, hw, ht, hn⟩ := h
  rw [cstep_arrive_invalid cfg s m hv]
  exact ⟨hres, hq, hw, ht, hn⟩

theorem fifoInv_arrive (cfg : Config) (vs : List AgentResponseMessage)
    (w : Nat) (s : TState) (m : AgentResponseMessage) (h : FifoInv vs w s)
    (hv : isValidReply cfg m = true) :
    FifoInv (vs ++ [m]) w (cstep cfg s (.arrive m)) := by
  obtain ⟨hres, hq, hw, ht, hn⟩ := h
  rw [cstep_arrive_valid cfg s m hv]
  by_cases hwl : w ≤ vs.length
  · -- no waiter is pending: the reply is appended to the queue
    have hwe : s.waiting = [] := by
      rw [hw]; exact List.drop_eq_nil_of_le (by simp; omega)
    refine ⟨?_, ?_, ?_, ?_, ?_⟩ <;>
      simp only [drainLoop_eq, hwe, List.zip_nil_left, List.drop_nil,
        List.length_nil, List.drop_zero, List.foldl_nil, List.append_nil]
    · rw [hres, List.take_append_of_le_length hwl]
    · rw [hq, List.drop_append_eq_append_drop, Nat.sub_eq_zero_of_le hwl,
        List.drop_zero]
    · rw [List.drop_eq_nil_of_le (by simp; omega)]
    · rw [ht, hwe]
    · exact hn
  · -- a waiter is pending: the queue was empty, the drain pairs it with m
    push_neg at hwl
    have hqe : s.queue = [] := by
      rw [hq]; exact List.drop_eq_nil_of_le (le_of_lt hwl)
    have hlen : vs.length < (List.range w).length := by
      rw [List.length_range]; exact hwl
    have hwcons : s.waiting = vs.length :: (List.range w).drop (vs.length + 1) := by
      rw [hw, List.drop_eq_getElem_cons hlen, List.getElem_range]
    have hrest : ((List.range w).drop (vs.length + 1)).length = w - (vs.length + 1) := by
      rw [List.length_drop, List.length_range]
    refine ⟨?_, ?_, ?_, ?_, ?_⟩ <;>
      simp only [drainLoop_eq, hqe, List.nil_append, hwcons, List.zip_cons_cons,
        List.zip_nil_right, List.foldl_cons, List.foldl_nil]
    · show s.resolved ++ [(vs.length, m)] = idxFrom 0 ((vs ++ [m]).take w)
      rw [hres, List.take_of_length_le (le_of_lt hwl),
        List.take_of_length_le (by simp; omega), idxFrom_append]
      simp [idxFrom]
    · show [m].drop (vs.length :: (List.range w).drop (vs.length + 1)).length
          = (vs ++ [m]).drop w
      rw [List.drop_eq_nil_of_le (by simp),
        List.drop_eq_nil_of_le (by simp; omega)]
    · show (vs.length :: (List.range w).drop (vs.length + 1)).drop [m].length
          = (List.range w).drop (vs ++ [m]).length
      simp
    · show s.timers.erase vs.length
          = (vs.length :: (List.range w).drop (vs.length + 1)).drop [m].length
      rw [ht, hwcons, List.erase_cons_head]
      simp
    · exact hn

theorem fifoInv_run (cfg : Config) (evs : List CEvent)
    (hb : evs.all CEvent.isBasic = true) (vs : List AgentResponseMessage)
    (w : Nat) (s : TState) (h : FifoInv vs w s) :
    FifoInv (vs ++ validArrivals cfg evs) (w + numRegs evs)
      (runEvents cfg s evs) := by
  induction evs generalizing vs w s with
  | nil => simpa [validArrivals, numRegs, runEvents] using h
  | cons e es ih =>
    rw [List.all_cons, Bool.and_eq_true] at hb
    cases e with
    | arrive m =>
      by_cases hv : isValidReply cfg m = true
      · have h' := fifoInv_arrive cfg vs w s m h hv
        have := ih hb.2 (vs ++ [m]) w _ h'
        simpa [validArrivals, hv, numRegs, runEvents, List.append_assoc] using this
      · have h' := fifoInv_arrive_invalid cfg vs w s m h hv
        have := ih hb.2 vs w _ h'
        simpa [validArrivals, hv, numRegs, runEvents] using this
    | registerWait =>
      have h' := fifoInv_registerWait cfg vs w s h
      have := ih hb.2 vs (w + 1) _ h'
      have harith : w + 1 + numRegs es = w + (numRegs es + 1) := by omega
      simpa [validArrivals, numRegs, runEvents, harith] using this
    | registerSendAwait => simp [CEvent.isBasic] at hb
    | timerFire wid => simp [CEvent.isBasic] at hb

/-! ## Settled waiters stay settled -/

/-- The first components of a zip are the prefix of the first list. -/
theorem map_fst_zip_eq_take (ws : List Nat) (ms : List AgentResponseMessage) :
    (ws.zip ms).map Prod.fst = ws.take ms.length := by
  induction ws generalizing ms with
  | nil => simp
  | cons w ws ih =>
    cases ms with
    | nil => simp
    | cons m ms => simp [ih]

/-- Folding the drain loop's timer-clearing over the waiter list itself
removes exactly the paired prefix. -/
theorem foldl_erase_self (ws : List Nat) (ms : List AgentResponseMessage) :
    (ws.zip ms).foldl (fun tt p => tt.erase p.1) ws = ws.drop ms.length := by
  induction ws generalizing ms with
  | nil => simp
  | cons w ws ih =>
    cases ms with
    | nil => simp
    | cons m ms => simp [List.erase_cons_head, ih]

theorem notMine_cstep (cfg : Config) (wid : Nat) (s : TState) (e : CEvent)
    (h : NotMine wid s) : NotMine wid (cstep cfg s e) := by
  obtain ⟨hw, hn, hr⟩ := h
  cases e with
  | arrive m =>
    by_cases hv : isValidReply cfg m = true
    · rw [cstep_arrive_valid cfg s m hv]
      refine ⟨?_, hn, ?_⟩
      · simp only [drainLoop_eq]
        intro hmem
        exact hw (List.mem_of_mem_drop hmem)
      · simp only [drainLoop_eq, List.map_append, List.mem_append]
        rintro (h1 | h2)
        · exact hr h1
        · obtain ⟨⟨a, b⟩, hp, hpe⟩ := List.mem_map.mp h2
          have := (List.of_mem_zip hp).1
          simp only at hpe
          exact hw (hpe ▸ this)
    · rw [cstep_arrive_invalid cfg s m hv]
      exact ⟨hw, hn, hr⟩
  | registerWait =>
    cases hq : s.queue with
    | nil =>
      rw [cstep_registerWait_nil cfg s hq]
      refine ⟨?_, Nat.lt_succ_of_lt hn, hr⟩
      simp only [List.mem_append]
      rintro (h1 | h2)
      · exact hw h1
      · simp at h2; omega
    | cons m rest =>
      rw [cstep_registerWait_cons cfg s m rest hq]
      refine ⟨hw, Nat.lt_succ_of_lt hn, ?_⟩
      simp only [List.map_append, List.mem_append]
      rintro (h1 | h2)
      · exact hr h1
      · simp at h2; omega
  | registerSendAwait =>
    rw [cstep_registerSendAwait]
    refine ⟨?_, Nat.lt_succ_of_lt hn, hr⟩
    simp only [List.mem_append]
    rintro (h1 | h2)
    · exact hw h1
    · simp at h2; omega
  | timerFire w2 =>
    by_cases hts : w2 ∈ s.timers
    · by_cases hww : w2 ∈ s.waiting
      · rw [cstep_timerFire_pending cfg s w2 hts hww]
        exact ⟨fun hmem => hw (List.mem_of_mem_erase hmem), hn, hr⟩
      · rw [cstep_timerFire_settled cfg s w2 hts hww]
        exact ⟨hw, hn, hr⟩
    · rw [cstep_timerFire_cleared cfg s w2 hts]
      exact ⟨hw, hn, hr⟩

/-- A settled waiter is never resolved by any later sequence of events. -/
theorem notMine_run (cfg : Config) (wid : Nat) (s : TState) (evs : List CEvent)
    (h : NotMine wid s) : NotMine wid (runEvents cfg s evs) := by
  induction evs generalizing s with
  | nil => exact h
  | cons e es ih => exact ih _ (notMine_cstep cfg wid s e h)

theorem wellFormed_init : WellFormed initTState := by decide

theorem wellFormed_cstep (cfg : Config) (s : TState) (e : CEvent)
    (h : WellFormed s) : WellFormed (cstep cfg s e) := by
  obtain ⟨hnd, hlt, hnr, hrb, ht⟩ := h
  cases e with
  | arrive m =>
    by_cases hv : isValidReply cfg m = true
    · rw [cstep_arrive_valid cfg s m hv]
      have hdisj : (s.waiting.take (s.queue ++ [m]).length).Disjoint
          (s.waiting.drop (s.queue ++ [m]).length) := by
        have hnd2 : (s.waiting.take (s.queue ++ [m]).length ++
            s.waiting.drop (s.queue ++ [m]).length).Nodup := by
          rw [List.take_append_drop]; exact hnd
        exact (List.nodup_append.mp hnd2).2.2
      refine ⟨?_, ?_, ?_, ?_, ?_⟩
      · simp only [drainLoop_eq]
        exact hnd.sublist (List.drop_sublist _ _)
      · simp only [drainLoop_eq]
        intro w hmem
        exact hlt w (List.mem_of_mem_drop hmem)
      · simp only [drainLoop_eq, List.map_append, List.mem_append,
          map_fst_zip_eq_take]
        intro w hmem
        rintro (h1 | h2)
        · exact hnr w (List.mem_of_mem_drop hmem) h1
        · exact hdisj h2 hmem
      · simp only [drainLoop_eq, List.map_append, List.mem_append,
          map_fst_zip_eq_take]
        rintro w (h1 | h2)
        · exact hrb w h1
        · exact hlt w (List.mem_of_mem_take h2)
      · simp only [drainLoop_eq, ht, foldl_erase_self]
    · rw [cstep_arrive_invalid cfg s m hv]
      exact ⟨hnd, hlt, hnr, hrb, ht⟩
  | registerWait =>
    cases hq : s.queue with
    | nil =>
      rw [cstep_registerWait_nil cfg s hq]
      refine ⟨?_, ?_, ?_, ?_, ?_⟩
      · rw [List.nodup_append]
        refine ⟨hnd, List.nodup_singleton _, ?_⟩
        intro a ha hb
        simp at hb
        exact absurd (hlt a ha) (by omega)
      · intro w hmem
        rcases List.mem_append.mp hmem with h1 | h2
        · exact Nat.lt_succ_of_lt (hlt w h1)
        · simp at h2
          subst h2
          exact Nat.lt_succ_self _
      · intro w hmem
        rcases List.mem_append.mp hmem with h1 | h2
        · exact hnr w h1
        · simp at h2
          subst h2
          intro hc
          exact absurd (hrb _ hc) (by omega)
      · intro w hmem
        exact Nat.lt_succ_of_lt (hrb w hmem)
      · rw [ht]
    | cons m rest =>
      rw [cstep_registerWait_cons cfg s m rest hq]
      refine ⟨hnd, ?_, ?_, ?_, ht⟩
      · intro w hmem
        exact Nat.lt_succ_of_lt (hlt w hmem)
      · intro w hmem
        simp only [List.map_append, List.mem_append]
        rintro (h1 | h2)
        · exact hnr w hmem h1
        · simp at h2
          exact absurd (hlt w hmem) (by omega)
      · intro w hmem
        simp only [List.map_append, List.mem_append] at hmem
        rcases hmem with h1 | h2
        · exact Nat.lt_succ_of_lt (hrb w h1)
        · simp at h2
          subst h2
          exact Nat.lt_succ_self _
  | registerSendAwait =>
    rw [cstep_registerSendAwait]
    refine ⟨?_, ?_, ?_, ?_, ?_⟩
    · rw [List.nodup_append]
      refine ⟨hnd, List.nodup_singleton _, ?_⟩
      intro a ha hb
      simp at hb
      exact absurd (hlt a ha) (by omega)
    · intro w hmem
      rcases List.mem_append.mp hmem with h1 | h2
      · exact Nat.lt_succ_of_lt (hlt w h1)
      · simp at h2
        subst h2
        exact Nat.lt_succ_self _
    · intro w hmem
      rcases List.mem_append.mp hmem with h1 | h2
      · exact hnr w h1
      · simp at h2
        subst h2
        intro hc
        exact absurd (hrb _ hc) (by omega)
    · intro w hmem
      exact Nat.lt_succ_of_lt (hrb w hmem)
    · rw [ht]
  | timerFire w2 =>
    by_cases hts : w2 ∈ s.timers
    · by_cases hww : w2 ∈ s.waiting
      · rw [cstep_timerFire_pending cfg s w2 hts hww]
        refine ⟨hnd.erase w2, ?_, ?_, hrb, by rw [ht]⟩
        · intro w hmem
          exact hlt w (List.mem_of_mem_erase hmem)
        · intro w hmem
          exact hnr w (List.mem_of_mem_erase hmem)
      · rw [cstep_timerFire_settled cfg s w2 hts hww]
        refine ⟨hnd, hlt, hnr, hrb, ?_⟩
        rw [ht, List.erase_of_not_mem hww]
    · rw [cstep_timerFire_cleared cfg s w2 hts]
      exact ⟨hnd, hlt, hnr, hrb, ht⟩

/-- Every reachable correlation-engine state is well formed. -/
theorem wellFormed_run (cfg : Config) (s : TState) (evs : List CEvent)
    (h : WellFormed s) : WellFormed (runEvents cfg s evs) := by
  induction evs generalizing s with
  | nil => exact h
  | cons e es ih => exact ih _ (wellFormed_cstep cfg s e h)

/-! ## The claims -/

/-- C1: FIFO correlation: over every sequence of inbound envelopes and
`waitForNextMessage` registrations, delivered in order, the i-th registered
waiter resolves with the i-th valid reply — the resolution log pairs waiter
ordinal `i` with the i-th valid arrival, for as many pairs as both sides
provide, never reordered. -/
theorem C1_fifo_correlation (cfg : Config) (evs : List CEvent)
    (hb : evs.all CEvent.isBasic = true) :
    (runEvents cfg initTState evs).resolved =
      idxFrom 0 ((validArrivals cfg evs).take (numRegs evs)) := by
  have h := (fifoInv_run cfg evs hb [] 0 initTState fifoInv_init).1
  simpa using h

/-- Witness for C1: the P3 scenario — waiters W1, W2, W3 interleaved with
replies R1, R2, R3 — pairs them strictly in order. -/
theorem C1_fifo_correlation_witness :
    (runEvents cfgW initTState evsW).resolved =
      idxFrom 0 ((validArrivals cfgW evsW).take (numRegs evsW)) :=
  C1_fifo_correlation cfgW evsW (by decide)

/-- C3: filtering: an inbound envelope that is not a valid reply (foreign
sender, or absent/empty/whitespace-only text) is delivered to the general
observers but changes nothing else: it is not queued, resolves no waiter,
removes no waiter. -/
theorem C3_filtering (cfg : Config) (s : TState) (m : AgentResponseMessage)
    (hv : isValidReply cfg m = false) :
    (cstep cfg s (.arrive m)).observed = s.observed ++ [m] ∧
    (cstep cfg s (.arrive m)).queue = s.queue ∧
    (cstep cfg s (.arrive m)).waiting = s.waiting ∧
    (cstep cfg s (.arrive m)).resolved = s.resolved ∧
    (cstep cfg s (.arrive m)).rejectedT = s.rejectedT := by
  rw [cstep_arrive_invalid cfg s m (by simp [hv])]
  exact ⟨rfl, rfl, rfl, rfl, rfl⟩

/-- Witness for C3: an envelope from a foreign sender is observed but never
queued and never resolves a waiter. -/
theorem C3_filtering_witness :
    (cstep cfgW initTState (.arrive msgForeign)).observed =
        initTState.observed ++ [msgForeign] ∧
    (cstep cfgW initTState (.arrive msgForeign)).queue = initTState.queue ∧
    (cstep cfgW initTState (.arrive msgForeign)).waiting = initTState.waiting ∧
    (cstep cfgW initTState (.arrive msgForeign)).resolved = initTState.resolved ∧
    (cstep cfgW initTState (.arrive msgForeign)).rejectedT = initTState.rejectedT :=
  C3_filtering cfgW initTState msgForeign (by decide)

/-- C5: timeout cleanup: in a well-formed engine state, (a) when the timer of
a still-pending waiter fires, that waiter is removed from the waiter set,
recorded as timed out, and no later sequence of events (in particular no
later valid reply) ever resolves it; (b) a waiter that was already resolved
has had its timer cleared, so its timeout callback firing is a no-op. -/
theorem C5_timeout_cleanup (cfg : Config) (s : TState) (wid : Nat)
    (evs : List CEvent) (hwf : WellFormed s) :
    (wid ∈ s.waiting →
      wid ∉ (cstep cfg s (.timerFire wid)).waiting ∧
      wid ∈ (cstep cfg s (.timerFire wid)).rejectedT ∧
      wid ∉ (runEvents cfg (cstep cfg s (.timerFire wid)) evs).resolved.map
          Prod.fst) ∧
    (wid ∈ s.resolved.map Prod.fst → cstep cfg s (.timerFire wid) = s) := by
  obtain ⟨hnd, hlt, hnr, hrb, ht⟩ := hwf
  constructor
  · intro hmem
    have hts : wid ∈ s.timers := by rw [ht]; exact hmem
    rw [cstep_timerFire_pending cfg s wid hts hmem]
    refine ⟨?_, ?_, ?_⟩
    · intro hc
      exact absurd rfl ((hnd.mem_erase_iff).mp hc).1
    · simp
    · have h0 : NotMine wid { s with timers := s.timers.erase wid,
                                     waiting := s.waiting.erase wid,
                                     rejectedT := s.rejectedT ++ [wid] } := by
        refine ⟨?_, hlt wid hmem, hnr wid hmem⟩
        intro hc
        exact absurd rfl ((hnd.mem_erase_iff).mp hc).1
      exact (notMine_run cfg wid _ evs h0).2.2
  · intro hres
    have hnw : wid ∉ s.waiting := fun hc => hnr wid hc hres
    have hnt : wid ∉ s.timers := by rw [ht]; exact hnw
    exact cstep_timerFire_cleared cfg s wid hnt

/-- Witness for C5: one registered waiter times out; a reply arriving
afterwards does not resolve it, and a timer firing for a resolved waiter is
a no-op. -/
theorem C5_timeout_cleanup_witness :
    (0 ∈ (cstep cfgW initTState .registerWait).waiting →
      0 ∉ (cstep cfgW (cstep cfgW initTState .registerWait)
            (.timerFire 0)).waiting ∧
      0 ∈ (cstep cfgW (cstep cfgW initTState .registerWait)
            (.timerFire 0)).rejectedT ∧
      0 ∉ (runEvents cfgW (cstep cfgW (cstep cfgW initTState .registerWait)
            (.timerFire 0)) [.arrive (replyW "late")]).resolved.map Prod.fst) ∧
    (0 ∈ (cstep cfgW initTState .registerWait).resolved.map Prod.fst →
      cstep cfgW (cstep cfgW initTState .registerWait) (.timerFire 0) =
        cstep cfgW initTState .registerWait) :=
  C5_timeout_cleanup cfgW (cstep cfgW initTState .registerWait) 0
    [.arrive (replyW "late")] (by decide)

/-- C10: `sendMessageAndGetResponse` registers its waiter without consulting
the message queue: with a reply already queued and no pending waiter, the
registration consumes nothing and resolves nothing, and the waiter is only
resolved when the next valid reply arrives — the drain loop then pairs it
with the OLDEST queued reply, not with the new arrival; `waitForNextMessage`
called in the same state instead consumes the queued reply immediately. -/
theorem C10_sendAwait_ignores_queue (cfg : Config) (s : TState)
    (q0 m : AgentResponseMessage) (qrest : List AgentResponseMessage)
    (hq : s.queue = q0 :: qrest) (hw : s.waiting = [])
    (hv : isValidReply cfg m = true) :
    (cstep cfg s .registerSendAwait).queue = s.queue ∧
    (cstep cfg s .registerSendAwait).resolved = s.resolved ∧
    (cstep cfg s .registerSendAwait).waiting = [s.nextWid] ∧
    (runEvents cfg s [.registerSendAwait, .arrive m]).resolved =
      s.resolved ++ [(s.nextWid, q0)] ∧
    (cstep cfg s .registerWait).resolved = s.resolved ++ [(s.nextWid, q0)] ∧
    (cstep cfg s .registerWait).queue = qrest := by
  refine ⟨?_, ?_, ?_, ?_, ?_, ?_⟩
  · rw [cstep_registerSendAwait]
  · rw [cstep_registerSendAwait]
  · rw [cstep_registerSendAwait]
    simp [hw]
  · have hrun : runEvents cfg s [.registerSendAwait, .arrive m] =
        cstep cfg (cstep cfg s .registerSendAwait) (.arrive m) := rfl
    rw [hrun, cstep_registerSendAwait, cstep_arrive_valid _ _ _ hv]
    simp only [drainLoop_eq]
    simp [hw, hq]
  · rw [cstep_registerWait_cons cfg s q0 qrest hq]
  · rw [cstep_registerWait_cons cfg s q0 qrest hq]

/-- Witness for C10: with reply q0 queued, the `sendAndAwait` waiter skips it
at registration and is later paired with q0 when r1 arrives, while
`waitForNextMessage` would have consumed q0 immediately. -/
theorem C10_sendAwait_ignores_queue_witness :
    (cstep cfgW sQueued .registerSendAwait).queue = sQueued.queue ∧
    (cstep cfgW sQueued .registerSendAwait).resolved = sQueued.resolved ∧
    (cstep cfgW sQueued .registerSendAwait).waiting = [sQueued.nextWid] ∧
    (runEvents cfgW sQueued [.registerSendAwait, .arrive (replyW "r1")]).resolved =
      sQueued.resolved ++ [(sQueued.nextWid, replyW "q0")] ∧
    (cstep cfgW sQueued .registerWait).resolved =
      sQueued.resolved ++ [(sQueued.nextWid, replyW "q0")] ∧
    (cstep cfgW sQueued .registerWait).queue = [] :=
  C10_sendAwait_ignores_queue cfgW sQueued (replyW "q0") (replyW "r1") []
    (by decide) (by decide) (by decide)

/-- C2 counterexample: in a state whose transport is already connected,
`connect()` takes the idempotent early return BEFORE the identity checks, so
with unequal agent and room ids it still resolves with success instead of
raising a configuration error — the precondition is not enforced for all
input pairs. -/
theorem C2_counterexample :
    sConnectedMismatch.config.agentId ≠ sConnectedMismatch.config.roomId ∧
    connectSync sConnectedMismatch = (.alreadyConnected, sConnectedMismatch) := by
  constructor
  · decide
  · rfl

/-- C2 (amended): when the transport is NOT already connected, `connect()`
raises a configuration error — leaving the state untouched and opening no
transport — whenever the agent id or room id is unset or the two differ; and
`switchAgent` raises whenever its two arguments differ, regardless of
state. -/
theorem C2_identity_preconditions (s : ClientState) (a r : String) :
    (s.socketConnected = false →
      (s.config.agentId = "" ∨ s.config.roomId = "" ∨
        s.config.agentId ≠ s.config.roomId) →
      ∃ msg, connectSync s = (.configError msg, s)) ∧
    (a ≠ r →
      switchAgentPre s a r =
        .error "Switching agent failed: newAgentId and newRoomId must be identical.") := by
  constructor
  · intro hns hbad
    unfold connectSync
    rw [if_neg (by simp [hns])]
    by_cases he : s.config.agentId = "" ∨ s.config.roomId = ""
    · exact ⟨_, by rw [if_pos he]⟩
    · rcases hbad with h | h | h
      · exact absurd (Or.inl h) he
      · exact absurd (Or.inr h) he
      · exact ⟨_, by rw [if_neg he, if_pos h]⟩
  · intro hne
    unfold switchAgentPre
    rw [if_pos hne]

/-- Witness for C2 (amended): a fresh client with empty ids gets a
configuration error from `connect()`, and `switchAgent("A","B")` raises. -/
theorem C2_identity_preconditions_witness :
    (sFresh.socketConnected = false →
      (sFresh.config.agentId = "" ∨ sFresh.config.roomId = "" ∨
        sFresh.config.agentId ≠ sFresh.config.roomId) →
      ∃ msg, connectSync sFresh = (.configError msg, sFresh)) ∧
    ("A" ≠ "B" →
      switchAgentPre sFresh "A" "B" =
        .error "Switching agent failed: newAgentId and newRoomId must be identical.") :=
  C2_identity_preconditions sFresh "A" "B"

/-- C6: idempotent connect: with the transport already connected, `connect()`
resolves with success and changes nothing — same state, no new socket, no new
envelope emitted — and a second call does the same. -/
theorem C6_idempotent_connect (s : ClientState) (hc : s.socketConnected = true) :
    connectSync s = (.alreadyConnected, s) ∧
    connectSync (connectSync s).2 = (.alreadyConnected, s) := by
  have h1 : connectSync s = (.alreadyConnected, s) := by
    unfold connectSync
    rw [if_pos hc]
  refine ⟨h1, ?_⟩
  rw [h1]
  exact h1

/-- Witness for C6: two successive `connect()` calls on a connected session
both succeed without touching the state. -/
theorem C6_idempotent_connect_witness :
    connectSync sConnected = (.alreadyConnected, sConnected) ∧
    connectSync (connectSync sConnected).2 = (.alreadyConnected, sConnected) :=
  C6_idempotent_connect sConnected (by decide)

/-- C7: reconfiguration reset: every call `switchAgent(t, t)` succeeds past
its identity check, and the state it reaches after the disconnect phase and
before the reconnect has an empty message queue, an empty resolver list, a
cleared membership flag, and target and room both equal to `t`. -/
theorem C7_switch_reset (s : ClientState) (t : String) :
    ∃ s2, switchAgentPre s t t = .ok s2 ∧
      s2.messageQueue = [] ∧ s2.resolvers = [] ∧ s2.roomJoined = false ∧
      s2.config.agentId = t ∧ s2.config.roomId = t := by
  by_cases hd : s.socketExists ∧ s.socketConnected
  · refine ⟨{ disconnectOp s with
                config := { (disconnectOp s).config with agentId := t, roomId := t },
                roomJoined := false, messageQueue := [], resolvers := [] },
            ?_, rfl, rfl, rfl, rfl, rfl⟩
    unfold switchAgentPre
    rw [if_neg (by simp), if_pos hd]
  · refine ⟨{ s with
                config := { s.config with agentId := t, roomId := t },
                roomJoined := false, messageQueue := [], resolvers := [] },
            ?_, rfl, rfl, rfl, rfl, rfl⟩
    unfold switchAgentPre
    rw [if_neg (by simp), if_neg hd]

/-- C9: a `connect_error` transport event is inert — it neither settles the
pending `connect()` promise nor changes any state — and the only events whose
handlers settle the pending promise are the successful `connect` event, the
`reconnect_failed` event and the connect-timeout timer. -/
theorem C9_connect_error_is_inert (s : ClientState) (err : String) :
    connStep s (.connectErrorEv err) = s ∧
    ∀ ev : ConnEvent, (connStep s ev).attemptSettled ≠ s.attemptSettled →
      ev.settlesAttempt = true := by
  refine ⟨rfl, ?_⟩
  intro ev hch
  cases ev with
  | connectEv => rfl
  | connectErrorEv e => exact absurd rfl hch
  | reconnectAttemptEv n => exact absurd rfl hch
  | reconnectFailedEv => rfl
  | connectTimeoutFires => rfl
  | disconnectEv r => exact absurd rfl hch

/-- `saAfterConnect` never rejects: every exit is a resolution. -/
theorem saAfterConnect_ne_rejected (s : ClientState) (mid e : String) :
    saAfterConnect s mid ≠ .rejected e := by
  unfold saAfterConnect
  split_ifs <;> simp

/-- C4: timeout surfacing: the response-timeout callback of
`sendMessageAndGetResponse` RESOLVES (never rejects) with an error-shaped
result whose `error` field is set and whose `text` field is absent, while the
timeout callback of `waitForNextMessage` REJECTS with an error whose message
contains the configured agent id and the waited duration; and
`sendMessageAndGetResponse` rejects only when the transport was down and the
awaited `connect()` itself rejected. -/
theorem C4_timeout_surfacing (cfg : Config) (timeoutArg : Option Nat)
    (messageId : String) (s : ClientState)
    (cr : Except String ClientState) :
    (sendAwaitOnTimeout cfg messageId =
        .resolve (sendAwaitTimeoutResult cfg messageId) ∧
      (sendAwaitTimeoutResult cfg messageId).error.isSome = true ∧
      (sendAwaitTimeoutResult cfg messageId).text = none) ∧
    (∃ err, waitForNextOnTimeout cfg timeoutArg = .reject err ∧
      cfg.agentId.data <:+: err.data ∧
      (toString (effWaitTimeout cfg timeoutArg)).data <:+: err.data) ∧
    (∀ e, sendMessageAndGetResponse s cr messageId = .rejected e →
      s.socketConnected = false ∧ cr = .error e) := by
  refine ⟨⟨rfl, rfl, rfl⟩, ⟨_, rfl, ?_, ?_⟩, ?_⟩
  · refine ⟨("Timeout waiting for a VALID TEXTUAL response from agent ").data,
      (" after " ++ toString (effWaitTimeout cfg timeoutArg) ++ "ms").data, ?_⟩
    simp [String.data_append, List.append_assoc]
  · refine ⟨("Timeout waiting for a VALID TEXTUAL response from agent " ++
        cfg.agentId ++ " after ").data, ("ms").data, ?_⟩
    simp [String.data_append, List.append_assoc]
  · intro e h
    unfold sendMessageAndGetResponse at h
    by_cases hsc : s.socketConnected = true
    · rw [if_pos hsc] at h
      exact absurd h (saAfterConnect_ne_rejected s messageId e)
    · rw [if_neg hsc] at h
      cases cr with
      | error e2 =>
        dsimp only at h
        simp only [SAStart.rejected.injEq] at h
        subst h
        exact ⟨by simpa using hsc, rfl⟩
      | ok s2 =>
        dsimp only at h
        by_cases hs2 : s2.socketConnected = true
        · rw [if_neg (by simp [hs2])] at h
          exact absurd h (saAfterConnect_ne_rejected s2 messageId e)
        · rw [if_pos hs2] at h
          simp at h

/-! Projection facts for `setConfigModel`. -/

theorem setConfigModel_criticalChange (s : ClientState) (p : ConfigPatch) :
    (setConfigModel s p).criticalChange = criticalChangeOf s.config p := by
  simp only [setConfigModel]
  split_ifs <;> rfl

theorem setConfigModel_beforeConnect (s : ClientState) (p : ConfigPatch) :
    (setConfigModel s p).beforeConnect = setConfigDisconnectPhase s p := by
  simp only [setConfigModel]
  split_ifs <;> rfl

/-- Under a critical change, a session whose transport is actually connected
reaches `DISCONNECTED` during the disconnect phase of `setConfig`. -/
theorem setConfigDisconnectPhase_connected_state (s : ClientState)
    (p : ConfigPatch) (hcrit : criticalChangeOf s.config p = true)
    (hse : s.socketExists = true) (hsc : s.socketConnected = true) :
    (setConfigDisconnectPhase s p).connectionState = .DISCONNECTED := by
  by_cases hd : s.connectionState = .DISCONNECTED
  · simp [setConfigDisconnectPhase, disconnectOp, hse, hsc, hd]
  · simp [setConfigDisconnectPhase, disconnectOp, hse, hsc, hd, hcrit]

theorem setConfigModel_connectAttempted_iff (s : ClientState) (p : ConfigPatch)
    (hcrit : criticalChangeOf s.config p = true) :
    ((setConfigModel s p).connectAttempted = true ↔
      ((setConfigDisconnectPhase s p).connectionState ≠ .CONNECTING ∧
        allIdentitySet (mergeConfig s.config p))) := by
  simp only [setConfigModel]
  split_ifs with h1 h2
  all_goals first
    | (have hne : (setConfigDisconnectPhase s p).connectionState ≠ .CONNECTING := by
         rcases h1 with h1 | h1
         · rw [h1]
           simp
         · exact h1.2
       simp [hne, h2])
    | simp [h2]
    | (constructor
       · intro hx
         exact absurd hx (by simp)
       · rintro ⟨hne2, hai2⟩
         exact absurd (Or.inr ⟨by simp [hcrit], hne2⟩) h1)

theorem setConfigModel_noConnect (s : ClientState) (p : ConfigPatch)
    (hcrit : criticalChangeOf s.config p = true)
    (hne : (setConfigDisconnectPhase s p).connectionState ≠ .CONNECTING)
    (hai : ¬ allIdentitySet (mergeConfig s.config p)) :
    (setConfigModel s p).connectAttempted = false ∧
    (setConfigModel s p).noConnectFinal.connectionState = .DISCONNECTED := by
  simp only [setConfigModel]
  split_ifs with h1 h2
  all_goals first
    | exact absurd h2 hai
    | exact ⟨rfl, rfl⟩
    | exact absurd (Or.inr ⟨by simp [hcrit], hne⟩) h1

/-- C8 counterexample: from a session in `ERROR` state whose socket is not
connected, a critical-change `setConfig` with all five identity fields
populated attempts the fresh `connect()` while the connection state is still
`ERROR` — the state never reaches `DISCONNECTED` before the reconnect,
because the transport emits no `disconnect` event for a socket that is not
connected. -/
theorem C8_counterexample :
    (setConfigModel sErrorState pSwitchB).criticalChange = true ∧
    allIdentitySet (mergeConfig sErrorState.config pSwitchB) ∧
    (setConfigModel sErrorState pSwitchB).connectAttempted = true ∧
    (setConfigModel sErrorState pSwitchB).beforeConnect.connectionState =
      .ERROR := by
  refine ⟨by decide, by decide, by decide, by decide⟩

/-- C8 (amended): for every critical-change merge: (a) a `connect()` is
attempted iff the post-disconnect state is not `CONNECTING` and all five
identity fields of the merged configuration are populated (the code has a
single `connect()` call site, so at most one attempt is made); (b) when the
transport was actually connected, the state reaches `DISCONNECTED` before any
reconnect; (c) when the post-disconnect state is not `CONNECTING` and some
identity field is missing, no connect is attempted and the session is forced
to `DISCONNECTED`. -/
theorem C8_setConfig_critical (s : ClientState) (p : ConfigPatch)
    (hsock : s.socketConnected = true → s.socketExists = true)
    (hc : (setConfigModel s p).criticalChange = true) :
    ((setConfigModel s p).connectAttempted = true ↔
      ((setConfigModel s p).beforeConnect.connectionState ≠ .CONNECTING ∧
        allIdentitySet (mergeConfig s.config p))) ∧
    (s.socketConnected = true →
      (setConfigModel s p).beforeConnect.connectionState = .DISCONNECTED) ∧
    ((setConfigModel s p).beforeConnect.connectionState ≠ .CONNECTING →
      ¬ allIdentitySet (mergeConfig s.config p) →
      (setConfigModel s p).connectAttempted = false ∧
      (setConfigModel s p).noConnectFinal.connectionState = .DISCONNECTED) := by
  have hcrit : criticalChangeOf s.config p = true := by
    rw [← setConfigModel_criticalChange s p]
    exact hc
  have hbc := setConfigModel_beforeConnect s p
  refine ⟨?_, ?_, ?_⟩
  · rw [hbc]
    exact setConfigModel_connectAttempted_iff s p hcrit
  · intro hsc
    rw [hbc]
    exact setConfigDisconnectPhase_connected_state s p hcrit (hsock hsc) hsc
  · rw [hbc]
    intro hne hai
    exact setConfigModel_noConnect s p hcrit hne hai

/-- Witness for C8 (amended): a connected session under a critical change
reaches `DISCONNECTED` before exactly one reconnect attempt. -/
theorem C8_setConfig_critical_witness :
    ((setConfigModel sConnected pSwitchB).connectAttempted = true ↔
      ((setConfigModel sConnected pSwitchB).beforeConnect.connectionState ≠
          .CONNECTING ∧
        allIdentitySet (mergeConfig sConnected.config pSwitchB))) ∧
    (sConnected.socketConnected = true →
      (setConfigModel sConnected pSwitchB).beforeConnect.connectionState =
        .DISCONNECTED) ∧
    ((setConfigModel sConnected pSwitchB).beforeConnect.connectionState ≠
        .CONNECTING →
      ¬ allIdentitySet (mergeConfig sConnected.config pSwitchB) →
      (setConfigModel sConnected pSwitchB).connectAttempted = false ∧
      (setConfigModel sConnected pSwitchB).noConnectFinal.connectionState =
        .DISCONNECTED) :=
  C8_setConfig_critical sConnected pSwitchB (by decide) (by decide)

end ElizaMCP
